import Mathlib

/-!
Shallow embedding of the grayscale frame engine in `lib/thumbyGrayscale.py`
(class `Grayscale`), for checking the specification's claims.

Modelling conventions:

* The drawing code runs under `@micropython.viper`; its local `int` variables are
  native 32-bit machine words.  We model them as `Int`, with explicit helpers for
  the operations whose two's-complement behaviour matters: `low8`/`bitSet` for
  `& 0xff` and single-bit tests, `vasr` for arithmetic `>>`, and `vshl` for `<<`
  as compiled for the RP2040 (ARMv6-M `lsls`, which takes the shift amount from
  the low byte of the register and yields 0 for amounts of 32 or more).
* `bytearray` framebuffers (`buffer1`/`buffer2`, indexed through viper `ptr8`)
  are modelled as `Nat`-valued byte maps; a `ptr8` load keeps the low 8 bits and
  a store writes the low 8 bits of the 32-bit value (`bLoad`, `byteOr`, ...).
* The word-at-a-time code (`fill`, `_copy_buffers`, the copy arm of
  `_display_thread`, all via `ptr32`) is modelled over `Fin 90 → Nat` word maps
  (90 32-bit words = 360 bytes).
* Python `while` loops are translated as structural recursion on an explicit
  iteration count equal to the number of iterations the source loop performs
  (stated at each definition), so every definition evaluates by `decide`/`rfl`.
-/

namespace ThumbyGs

/-! ### viper machine-integer helpers -/

/-- Low byte of a two's-complement machine integer (`v & 0xff`). -/
def low8 (v : Int) : Nat := (v % 256).toNat

/-- Bit test `v & (1 << k) != 0` on a two's-complement machine integer:
bit `k` of `v` is `fdiv v 2^k mod 2`. -/
def bitSet (v : Int) (k : Nat) : Bool := v.fdiv (2 ^ k) % 2 == 1

/-- Reinterpret an integer as a signed 32-bit two's-complement word. -/
def sext32 (z : Int) : Int :=
  let r := z % 4294967296
  if r < 2147483648 then r else r - 4294967296

/-- viper `x << s` as compiled for the RP2040 (ARMv6-M `lsls` with a register
shift amount): the amount is the low byte of `s`; amounts of 32 or more give 0;
otherwise the product wraps to a signed 32-bit word. -/
def vshl (x s : Int) : Int :=
  let n := low8 s
  if 32 ≤ n then 0 else sext32 (x * 2 ^ n)

/-- viper `x >> k` (arithmetic shift right) for a constant amount `k`. -/
def vasr (x : Int) (k : Nat) : Int := x.fdiv (2 ^ k)

/-- Byte load through `ptr8`: one byte, zero-extended. -/
def bLoad (b : Nat) : Nat := b &&& 255

/-- Store `b[o] |= m`: byte load, 32-bit `or`, byte store of the low 8 bits. -/
def byteOr (b : Nat) (m : Int) : Nat := bLoad b ||| low8 m

/-- Store `b[o] &= m`: byte load, 32-bit `and`, byte store of the low 8 bits. -/
def byteAnd (b : Nat) (m : Int) : Nat := bLoad b &&& low8 m

/-- Test `b[o] & m` used as a truth value. -/
def byteTest (b : Nat) (m : Int) : Bool := bLoad b &&& low8 m != 0

/-! ### the dual-plane framebuffer (`buffer1`/`buffer2` seen through `ptr8`) -/

/-- The two 360-byte paint planes.  `b1` is `buffer1` (colour bit 0),
`b2` is `buffer2` (colour bit 1). -/
structure FB where
  b1 : Nat → Nat
  b2 : Nat → Nat

/-- Point update of a byte map. -/
def upd (f : Nat → Nat) (i v : Nat) : Nat → Nat := fun j => if j = i then v else f j

/-- The masked per-byte write both planes perform at offset `o`:
`if colour & 1: buffer1[o] |= m else: buffer1[o] &= im` and the same for
`buffer2` with `colour & 2`. -/
def writeMaskByte (fb : FB) (o : Int) (colour m im : Int) : FB :=
  { b1 := upd fb.b1 o.toNat
      (if bitSet colour 0 then byteOr (fb.b1 o.toNat) m else byteAnd (fb.b1 o.toNat) im)
    b2 := upd fb.b2 o.toNat
      (if bitSet colour 1 then byteOr (fb.b2 o.toNat) m else byteAnd (fb.b2 o.toNat) im) }

/-- Translation of `Grayscale.setPixel(x, y, colour)` (viper), line by line. -/
def setPixel (fb : FB) (x y colour : Int) : FB :=
  if x < 0 ∨ 72 ≤ x ∨ y < 0 ∨ 40 ≤ y then fb
  else
    let o : Int := vasr y 3 * 72 + x
    let m : Int := vshl 1 (y % 8)
    let im : Int := 255 - m
    writeMaskByte fb o colour m im

/-- Translation of `Grayscale.getPixel(x, y)` (viper), line by line. -/
def getPixel (fb : FB) (x y : Int) : Int :=
  if x < 0 ∨ 72 ≤ x ∨ y < 0 ∨ 40 ≤ y then 0
  else
    let o : Int := vasr y 3 * 72 + x
    let m : Int := vshl 1 (y % 8)
    let c1 : Nat := if byteTest (fb.b1 o.toNat) m then 1 else 0
    let c2 : Nat := if byteTest (fb.b2 o.toNat) m then c1 ||| 2 else c1
    (c2 : Int)

/-- An all-zero framebuffer, used to instantiate universally quantified theorems. -/
def zeroFB : FB := { b1 := fun _ => 0, b2 := fun _ => 0 }

/-! ### thread lifecycle constants (`_THREAD_*`) -/

def THREAD_STARTING : Nat := 0

def THREAD_STOPPED : Nat := 1

def THREAD_RUNNING : Nat := 2

def THREAD_STOPPING : Nat := 3

/-- Python exceptions raised by the modelled code paths. -/
inductive PyErr
  | typeError
  | valueError
  | nameError
  deriving DecidableEq

/-! ### the word-level compositor and fill -/

/-- The three sub-frame buffers `_buffer1`/`_buffer2`/`_buffer3`, as 90 32-bit
words each (= 360 bytes). -/
structure SubFrames where
  s0 : Fin 90 → Nat
  s1 : Fin 90 → Nat
  s2 : Fin 90 → Nat

/-- Translation of `Grayscale._copy_buffers` (viper): the 90-word loop
`v1 = b1[i]; v2 = b2[i]; _b1[i] = v1 | v2; _b2[i] = v2; _b3[i] = v1 & v2`,
written pointwise.  The copy arm of `_display_thread` runs the identical loop. -/
def copyBuffers (b1 b2 : Fin 90 → Nat) : SubFrames :=
  { s0 := fun i => b1 i ||| b2 i
    s1 := fun i => b2 i
    s2 := fun i => b1 i &&& b2 i }

/-- Translation of `Grayscale.fill(colour)` (viper): every word of `buffer1` becomes `-1`
(stored through `ptr32` as `0xffffffff`) or `0` by `colour & 1`, and of
`buffer2` by `colour & 2`. -/
def fillPlanes (colour : Int) : (Fin 90 → Nat) × (Fin 90 → Nat) :=
  ((fun _ => if bitSet colour 0 then 0xffffffff else 0),
   (fun _ => if bitSet colour 1 then 0xffffffff else 0))

/-! ### the GPU loop (`_display_thread`) -/

/-- The state touched by one iteration of the GPU loop: the paint planes
(`buffer1`/`buffer2`), the sub-frame buffers, the second byte of each
`_postFrameAdj[k]` command pair, the `_state` cells it reads or writes, and the
current sub-frame number `fn`. -/
structure GpuState where
  plane0 : Fin 90 → Nat
  plane1 : Fin 90 → Nat
  sub0 : Fin 90 → Nat
  sub1 : Fin 90 → Nat
  sub2 : Fin 90 → Nat
  adj0 : Nat
  adj1 : Nat
  adj2 : Nat
  copyBuffs : Nat
  pendingCmd : Nat
  contrast : Nat
  fn : Nat

/-- One iteration of the inner `while fn < 3` body of `Grayscale._display_thread`
(executed while the thread state is RUNNING), restricted to its effect on the
modelled state — the unconditional SPI streaming of the sub-frame and of the
pre/post-frame command bytes touches none of it.  The pending-work arms are the
`if (fn == 2) and state[_ST_COPY_BUFFS] != 0 / elif (fn == 2) and
state[_ST_CONTRAST] != 0xffff / elif state[_ST_PENDING_CMD]` chain; note the
command arm is NOT gated on `fn == 2`, and its body evaluates `pending_cmds`,
a name bound nowhere (the method never caches `self._pendingCmds`), raising
`NameError` — the iteration then aborts with all flags unchanged.  Byte stores
into the `_postFrameAdj` bytearrays keep the low 8 bits (MicroPython array item
assignment truncates to the element size). -/
def gpuIter (s : GpuState) : GpuState × Option PyErr :=
  if s.fn = 2 ∧ s.copyBuffs ≠ 0 then
    ({ s with
        sub0 := fun i => s.plane0 i ||| s.plane1 i
        sub1 := fun i => s.plane1 i
        sub2 := fun i => s.plane0 i &&& s.plane1 i
        copyBuffs := 0, fn := (s.fn + 1) % 3 }, none)
  else if s.fn = 2 ∧ s.contrast ≠ 0xffff then
    ({ s with
        adj0 := (s.contrast >>> 5) % 256
        adj1 := (s.contrast >>> 1) % 256
        adj2 := ((s.contrast <<< 1) + 1) % 256
        contrast := 0xffff, fn := (s.fn + 1) % 3 }, none)
  else if s.pendingCmd ≠ 0 then
    (s, some PyErr.nameError)
  else ({ s with fn := (s.fn + 1) % 3 }, none)

/-! ### the facade operations (`show`, `write_cmd`, `brightness*`) -/

/-- What a call observably does before returning: the copy-request flag value it
leaves, the SPI data writes it performs itself, and whether it spins until the
GPU clears the flag. -/
structure ShowResult where
  copyBuffs : Nat
  directWrites : List (Fin 90 → Nat)
  blocks : Bool

/-- Translation of `Grayscale.show()` (viper): `state[_ST_COPY_BUFFS] = 1`; if the thread state
is not RUNNING it returns at once; otherwise it spins until the GPU clears the
flag.  The body performs no SPI write on any path. -/
def showModel (threadState : Nat) (_plane0 : Fin 90 → Nat) : ShowResult :=
  { copyBuffs := 1, directWrites := [], blocks := threadState == THREAD_RUNNING }

/-- The behaviour of `show()` as the specification words it, for comparison:
"if running, set `copy_request`, spin until cleared; else direct SPI-write
plane0". -/
def showAsSpecified (threadState : Nat) (plane0 : Fin 90 → Nat) : ShowResult :=
  if threadState == THREAD_RUNNING then
    { copyBuffs := 1, directWrites := [], blocks := true }
  else
    { copyBuffs := 0, directWrites := [plane0], blocks := false }

/-- The dynamic argument passed to `write_cmd`. -/
inductive CmdArg
  | int (n : Nat)
  | list (l : List Nat)
  | bytes (l : List Nat)

/-- The argument normalization at the top of `Grayscale.write_cmd`.  In the
source, `cmd is list` and `cmd is bytearray` compare the argument with the type
OBJECTS by identity, which is false for every instance; hence every call reaches
`cmd = bytearray([cmd])`, which raises `TypeError` unless `cmd` is an integer
(and `ValueError` for an integer outside a byte's range). -/
def writeCmdNormalize : CmdArg → Except PyErr (List Nat)
  | CmdArg.int n => if n < 256 then Except.ok [n] else Except.error PyErr.valueError
  | CmdArg.list _ => Except.error PyErr.typeError
  | CmdArg.bytes _ => Except.error PyErr.typeError

/-- Translation of `Grayscale.write_cmd` while the engine is RUNNING, up to the point where it
sets `cmd_request` and starts spinning: the staged 8-byte pending-command
scratch (`cmd` padded with the display NOP 0x3e), or the exception raised.  The
`len(cmd) > len(pendingCmds)` branch raises
`ValueError('Cannot send more than 8 bytes using write_cmd()')`. -/
def writeCmdStage (a : CmdArg) : Except PyErr (List Nat) :=
  match writeCmdNormalize a with
  | Except.error e => Except.error e
  | Except.ok cmd =>
    if 8 < cmd.length then Except.error PyErr.valueError
    else Except.ok (cmd ++ List.replicate (8 - cmd.length) 0x3e)

/-- The clamp shared by `brightness` and `brightness_sync`; the result is what
they store into `_state[_ST_CONTRAST]`. -/
def brightnessClamp (c : Int) : Nat :=
  if c < 0 then 0 else if 127 < c then 127 else c.toNat

/-- The spin-wait exit test of `brightness_sync`: the loop
`while self._state[_ST_CONTRAST] != 0xff: idle()` exits when the cell
holds 0xff (which is also the initial sentinel in `__init__`:
`self._state = array('I', [0,0,0,0xff])`). -/
def brightnessSyncExit (cell : Nat) : Bool := cell == 0xff

/-! ### concrete shared-state snapshots for witnesses and counterexamples -/

/-- Sub-frame 0; copy and command both pending, contrast at the GPU sentinel. -/
def stAt0 : GpuState :=
  { plane0 := fun _ => 0, plane1 := fun _ => 0
    sub0 := fun _ => 0, sub1 := fun _ => 0, sub2 := fun _ => 0
    adj0 := 0, adj1 := 56, adj2 := 113
    copyBuffs := 1, pendingCmd := 1, contrast := 0xffff, fn := 0 }

/-- Sub-frame 2; only a copy pending. -/
def stCopyAt2 : GpuState :=
  { plane0 := fun _ => 0xffffffff, plane1 := fun _ => 0
    sub0 := fun _ => 0, sub1 := fun _ => 0, sub2 := fun _ => 0
    adj0 := 0, adj1 := 56, adj2 := 113
    copyBuffs := 1, pendingCmd := 0, contrast := 0xffff, fn := 2 }

/-- Sub-frame 2; only a copy pending (used by the `show` release witness). -/
def stShowCopy : GpuState :=
  { plane0 := fun _ => 0, plane1 := fun _ => 0xffffffff
    sub0 := fun _ => 0, sub1 := fun _ => 0, sub2 := fun _ => 0
    adj0 := 0, adj1 := 56, adj2 := 113
    copyBuffs := 1, pendingCmd := 0, contrast := 0xffff, fn := 2 }

/-- Sub-frame 2; only a command pending. -/
def stCmdAt2 : GpuState :=
  { plane0 := fun _ => 0, plane1 := fun _ => 0
    sub0 := fun _ => 0, sub1 := fun _ => 0, sub2 := fun _ => 0
    adj0 := 0, adj1 := 56, adj2 := 113
    copyBuffs := 0, pendingCmd := 1, contrast := 0xffff, fn := 2 }

/-- Sub-frame 2; a staged contrast of 64 pending. -/
def stContrast64 : GpuState :=
  { plane0 := fun _ => 0, plane1 := fun _ => 0
    sub0 := fun _ => 0, sub1 := fun _ => 0, sub2 := fun _ => 0
    adj0 := 0, adj1 := 56, adj2 := 113
    copyBuffs := 0, pendingCmd := 0, contrast := 64, fn := 2 }

/-- Sub-frame 2; nothing pending. -/
def stIdleAt2 : GpuState :=
  { plane0 := fun _ => 0, plane1 := fun _ => 0
    sub0 := fun _ => 0, sub1 := fun _ => 0, sub2 := fun _ => 0
    adj0 := 0, adj1 := 56, adj2 := 113
    copyBuffs := 0, pendingCmd := 0, contrast := 0xffff, fn := 2 }

/-! ### the rectangle and line primitives -/

/-- Selection of the per-plane store by a colour bit: `b |= m` or `b &= im`. -/
def maskW (cbit : Bool) (m im : Int) : Nat → Nat :=
  fun b => if cbit then byteOr b m else byteAnd b im

/-- Translation of `while o < oe: <write both planes at o>; o += 1` as recursion
on the iteration count `(oe - o).toNat`; `w1`/`w2` give the stored byte from the
loaded byte. -/
def mapRow (fb : FB) (o : Int) (w1 w2 : Nat → Nat) : Nat → FB
  | 0 => fb
  | n + 1 =>
    mapRow { b1 := upd fb.b1 o.toNat (w1 (fb.b1 o.toNat))
             b2 := upd fb.b2 o.toNat (w2 (fb.b2 o.toNat)) } (o + 1) w1 w2 n

/-- Translation of `Grayscale.drawHLine(x, y, width, colour)` (viper), line by
line; each `while o < oe` loop runs `(oe - o).toNat` times. -/
def drawHLine (fb : FB) (x y width colour : Int) : FB :=
  if y < 0 ∨ 40 ≤ y then fb
  else if 72 ≤ x then fb
  else if width ≤ 0 then fb
  else
    let width := if x < 0 then width + x else width
    let x := if x < 0 then 0 else x
    let x2 := x + width
    let x2 := if 72 < x2 then 72 else x2
    let o := vasr y 3 * 72
    let oe := o + x2
    let o := o + x
    let m : Int := vshl 1 (y % 8)
    let im : Int := 255 - m
    if colour = 0 then
      mapRow fb o (fun b => byteAnd b im) (fun b => byteAnd b im) (oe - o).toNat
    else if colour = 1 then
      mapRow fb o (fun b => byteOr b m) (fun b => byteAnd b im) (oe - o).toNat
    else if colour = 2 then
      mapRow fb o (fun b => byteAnd b im) (fun b => byteOr b m) (oe - o).toNat
    else if colour = 3 then
      mapRow fb o (fun b => byteOr b m) (fun b => byteOr b m) (oe - o).toNat
    else fb

/-- Translation of the vertical solid run of `drawVLine`:
`while height >= 8: o += 72; buffer1[o] = v1; buffer2[o] = v2; height -= 8`,
as recursion on `height.toNat` fuel (an upper bound on the iteration count,
tested against the real `8 <= height` guard at each step, so the result equals
the source loop's). -/
def vSolid (fb : FB) (o : Int) (v1 v2 : Nat) (height : Int) : Nat → FB × Int × Int
  | 0 => (fb, o, height)
  | n + 1 =>
    if 8 ≤ height then
      let o := o + 72
      vSolid { b1 := upd fb.b1 o.toNat v1, b2 := upd fb.b2 o.toNat v2 }
        o v1 v2 (height - 8) n
    else (fb, o, height)

/-- Translation of `Grayscale.drawVLine(x, y, height, colour)` (viper), line by
line.  The first masked byte write is unconditional in the source. -/
def drawVLine (fb : FB) (x y height colour : Int) : FB :=
  if x < 0 ∨ 72 ≤ x then fb
  else if 40 ≤ y then fb
  else if height ≤ 0 then fb
  else
    let height := if y < 0 then height + y else height
    let y := if y < 0 then 0 else y
    let height := if 40 < y + height then 40 - y else height
    let o := vasr y 3 * 72 + x
    let v1 : Nat := if bitSet colour 0 then 0xff else 0
    let v2 : Nat := if bitSet colour 1 then 0xff else 0
    let yb := y % 8
    let ybh := 8 - yb
    let m : Int := if height ≤ ybh then vshl (vshl 1 height - 1) yb else vshl 255 yb
    let im : Int := 255 - m
    let fb := writeMaskByte fb o colour m im
    let height := height - ybh
    let r := vSolid fb o v1 v2 height height.toNat
    let fb := r.1
    let o := r.2.1
    let height := r.2.2
    if 0 < height then
      let o := o + 72
      let m : Int := vshl 1 height - 1
      let im : Int := 255 - m
      writeMaskByte fb o colour m im
    else fb

/-- Translation of the solid middle bands of `drawFilledRectangle`:
`while height >= 8: o += strd; oe += 72; while o < oe: buffer1[o] = v1;
buffer2[o] = v2; o += 1; height -= 8`, as recursion on `height.toNat` fuel
tested against the real guard at each step.  After the inner row loop `o` has
advanced by the row's iteration count. -/
def dfrMid (fb : FB) (o oe strd : Int) (v1 v2 : Nat) (height : Int) :
    Nat → FB × Int × Int × Int
  | 0 => (fb, o, oe, height)
  | n + 1 =>
    if 8 ≤ height then
      let o := o + strd
      let oe := oe + 72
      let fb := mapRow fb o (fun _ => v1) (fun _ => v2) (oe - o).toNat
      let o := o + ((oe - o).toNat : Int)
      dfrMid fb o oe strd v1 v2 (height - 8) n
    else (fb, o, oe, height)

/-- Translation of `Grayscale.drawFilledRectangle(x, y, width, height, colour)`
(viper), line by line.  Note the first band loop runs even when the top-clipped
`height` has gone negative (the source does not recheck it); its mask is then
computed from a shift by that negative height. -/
def drawFilledRectangle (fb : FB) (x y width height colour : Int) : FB :=
  if 71 < x then fb
  else if 39 < y then fb
  else if width ≤ 0 then fb
  else if height ≤ 0 then fb
  else
    let width := if x < 0 then width + x else width
    let x := if x < 0 then 0 else x
    let height := if y < 0 then height + y else height
    let y := if y < 0 then 0 else y
    let x2 := x + width
    let y2 := y + height
    let width := if 72 < x2 then 72 - x else width
    let x2 := if 72 < x2 then 72 else x2
    let height := if 40 < y2 then 40 - y else height
    let o := vasr y 3 * 72
    let oe := o + x2
    let o := o + x
    let strd := 72 - width
    let v1 : Nat := if bitSet colour 0 then 0xff else 0
    let v2 : Nat := if bitSet colour 1 then 0xff else 0
    let yb := y % 8
    let ybh := 8 - yb
    let m : Int := if height ≤ ybh then vshl (vshl 1 height - 1) yb else vshl 255 yb
    let im : Int := 255 - m
    let cnt := (oe - o).toNat
    let fb := mapRow fb o (maskW (bitSet colour 0) m im) (maskW (bitSet colour 1) m im) cnt
    let o := o + (cnt : Int)
    let height := height - ybh
    let r := dfrMid fb o oe strd v1 v2 height height.toNat
    let fb := r.1
    let o := r.2.1
    let oe := r.2.2.1
    let height := r.2.2.2
    if 0 < height then
      let o := o + strd
      let oe := oe + 72
      let m : Int := vshl 1 height - 1
      let im : Int := 255 - m
      mapRow fb o (maskW (bitSet colour 0) m im) (maskW (bitSet colour 1) m im) (oe - o).toNat
    else fb

/-- Translation of the x-major Bresenham loop of `drawLine` (`while x != x1`),
as recursion on the remaining `(x1 - x).natAbs` steps: the loop moves `x` by
`sx = ±1` toward `x1` every iteration, so the count is exact.  Returns the
final `(fb, x, y, o, m, im)`. -/
def lineLoopX (fb : FB) (x y o m im err dx dy sx x1 colour : Int) :
    Nat → FB × Int × Int × Int × Int × Int
  | 0 => (fb, x, y, o, m, im)
  | n + 1 =>
    if x = x1 then (fb, x, y, o, m, im)
    else
      let fb := if 0 ≤ x ∧ x < 72 ∧ 0 ≤ y ∧ y < 40 then writeMaskByte fb o colour m im else fb
      let err := err - dy
      let t :=
        if err < 0 then
          let y := y + 1
          let m := vshl m 1
          if bitSet m 8 then (y, (1 : Int), (0xfe : Int), o + 72, err + dx)
          else (y, m, 255 - m, o, err + dx)
        else (y, m, im, o, err)
      lineLoopX fb (x + sx) t.1 (t.2.2.2.1 + sx) t.2.1 t.2.2.1 t.2.2.2.2 dx dy sx x1 colour n

/-- Translation of the y-major Bresenham loop of `drawLine` (`while y != y1`,
with `y` incremented by 1 every iteration), as recursion on the remaining
`(y1 - y).toNat` steps.  Returns the final `(fb, x, y, o, m, im)`. -/
def lineLoopY (fb : FB) (x y o m im err dx dy sx y1 colour : Int) :
    Nat → FB × Int × Int × Int × Int × Int
  | 0 => (fb, x, y, o, m, im)
  | n + 1 =>
    if y = y1 then (fb, x, y, o, m, im)
    else
      let fb := if 0 ≤ x ∧ x < 72 ∧ 0 ≤ y ∧ y < 40 then writeMaskByte fb o colour m im else fb
      let err := err - dx
      let t := if err < 0 then (x + sx, o + sx, err + dy) else (x, o, err)
      let x := t.1
      let o := t.2.1
      let err := t.2.2
      let y := y + 1
      let m := vshl m 1
      let u := if bitSet m 8 then ((1 : Int), (0xfe : Int), o + 72) else (m, 255 - m, o)
      lineLoopY fb x y u.2.2 u.1 u.2.1 err dx dy sx y1 colour n

/-- Translation of `Grayscale.drawLine(x0, y0, x1, y1, colour)` (viper), line by
line.  Note the source dispatches the degenerate axis-aligned cases crosswise:
a vertical request (`x0 == x1`) calls `drawHLine` with width `x1 - x0 = 0`, and
a horizontal request (`y0 == y1`) calls `drawVLine` with height `y1 - y0 = 0`. -/
def drawLine (fb : FB) (x0 y0 x1 y1 colour : Int) : FB :=
  if x0 = x1 then
    if y0 = y1 then setPixel fb x0 y0 colour
    else drawHLine fb x0 y0 (x1 - x0) colour
  else if y0 = y1 then drawVLine fb x0 y0 (y1 - y0) colour
  else
    let dx := x1 - x0
    let dy := y1 - y0
    let sx : Int := 1
    let p := if dy < 0 then (x1, y1, x0, y0, -dy, -dx) else (x0, y0, x1, y1, dy, dx)
    let x1 := p.2.2.1
    let y1 := p.2.2.2.1
    let dy := p.2.2.2.2.1
    let dx := p.2.2.2.2.2
    let q := if dx < 0 then (-dx, (-1 : Int)) else (dx, sx)
    let dx := q.1
    let sx := q.2
    let x := p.1
    let y := p.2.1
    let o := vasr y 3 * 72 + x
    let m : Int := vshl 1 (y % 8)
    let im : Int := 255 - m
    if dy < dx then
      let err := vasr dx 1
      let r := lineLoopX fb x y o m im err dx dy sx x1 colour (x1 - x).natAbs
      let fb := r.1
      let x := r.2.1
      let y := r.2.2.1
      let o := r.2.2.2.1
      let m := r.2.2.2.2.1
      let im := r.2.2.2.2.2
      if 0 ≤ x ∧ x < 72 ∧ 0 ≤ y ∧ y < 40 then writeMaskByte fb o colour m im else fb
    else
      let err := vasr dy 1
      let r := lineLoopY fb x y o m im err dx dy sx y1 colour (y1 - y).toNat
      let fb := r.1
      let x := r.2.1
      let y := r.2.2.1
      let o := r.2.2.2.1
      let m := r.2.2.2.2.1
      let im := r.2.2.2.2.2
      if 0 ≤ x ∧ x < 72 ∧ 0 ≤ y ∧ y < 40 then writeMaskByte fb o colour m im else fb

/-! ### helper lemmas -/

theorem or_and_self (b m : Nat) : (b ||| m) &&& m = m := by
  apply Nat.eq_of_testBit_eq
  intro j
  simp [Nat.testBit_and, Nat.testBit_or]
  tauto

/-- A byte written with `|= m` tests positive against `m` when the low byte of
`m` is a nonzero in-byte mask. -/
theorem byteTest_byteOr (b : Nat) (m : Int)
    (h1 : 255 &&& low8 m = low8 m) (h2 : low8 m ≠ 0) :
    byteTest (byteOr b m) m = true := by
  unfold byteTest byteOr bLoad
  rw [Nat.and_assoc, h1, or_and_self]
  simpa using h2

/-- A byte written with `&= im` tests negative against `m` when the low bytes of
`im` and `m` are disjoint masks. -/
theorem byteTest_byteAnd (b : Nat) (im m : Int)
    (h : low8 im &&& (255 &&& low8 m) = 0) :
    byteTest (byteAnd b im) m = false := by
  unfold byteTest byteAnd bLoad
  rw [Nat.and_assoc, Nat.and_assoc, h, Nat.and_zero]
  simp

theorem bitSet0_vals : bitSet 0 0 = false ∧ bitSet 1 0 = true ∧
    bitSet 2 0 = false ∧ bitSet 3 0 = true := by decide

theorem bitSet1_vals : bitSet 0 1 = false ∧ bitSet 1 1 = false ∧
    bitSet 2 1 = true ∧ bitSet 3 1 = true := by decide

/-- C7: for every x in [0,72), y in [0,40) and colour c in [0,4),
`setPixel(x,y,c)` followed by `getPixel(x,y)` returns `c`. -/
theorem setPixel_getPixel_roundtrip (fb : FB) (x y c : Int)
    (hx0 : 0 ≤ x) (hx : x < 72) (hy0 : 0 ≤ y) (hy : y < 40)
    (hc0 : 0 ≤ c) (hc : c < 4) :
    getPixel (setPixel fb x y c) x y = c := by
  have hguard : ¬(x < 0 ∨ 72 ≤ x ∨ y < 0 ∨ 40 ≤ y) := by push_neg; omega
  unfold getPixel setPixel writeMaskByte
  rw [if_neg hguard, if_neg hguard]
  simp only [upd, if_pos rfl]
  set e := y % 8 with hedef
  have he0 : 0 ≤ e := by rw [hedef]; exact Int.emod_nonneg y (by norm_num)
  have he8 : e < 8 := by rw [hedef]; exact Int.emod_lt_of_pos y (by norm_num)
  clear_value e
  have hkey : 255 &&& low8 (vshl 1 e) = low8 (vshl 1 e) ∧ low8 (vshl 1 e) ≠ 0 ∧
      low8 (255 - vshl 1 e) &&& (255 &&& low8 (vshl 1 e)) = 0 := by
    interval_cases e <;> decide
  obtain ⟨h1, h2, h3⟩ := hkey
  obtain ⟨b00, b10, b20, b30⟩ := bitSet0_vals
  obtain ⟨b01, b11, b21, b31⟩ := bitSet1_vals
  interval_cases c <;>
    simp [b00, b10, b20, b30, b01, b11, b21, b31,
      byteTest_byteOr _ _ h1 h2, byteTest_byteAnd _ _ _ h3]

/-- C7 witness: the round trip at the concrete pixel (10, 10) with colour 3. -/
theorem setPixel_getPixel_roundtrip_witness :
    getPixel (setPixel zeroFB 10 10 3) 10 10 = 3 :=
  setPixel_getPixel_roundtrip zeroFB 10 10 3 (by decide) (by decide) (by decide)
    (by decide) (by decide) (by decide)

/-! ### C1: the compositor identity -/

/-- C1 counterexample: for the planes produced by `fill(1)` (plane0 all-ones,
plane1 all-zero) the claimed identity `subframe[2] = plane0 & ~plane1` fails:
the code computes `v1 & v2`, which is all-zero here, while `plane0 & ~plane1`
is all-ones. -/
theorem compositor_spec_formula_false :
    ¬ (∀ i : Fin 90,
        (copyBuffers (fillPlanes 1).1 (fillPlanes 1).2).s2 i =
          (fillPlanes 1).1 i &&& (0xffffffff ^^^ (fillPlanes 1).2 i)) := by
  intro h
  exact absurd (h ⟨0, by norm_num⟩) (by decide)

/-- C1 amended: the compositor satisfies `sub0 = plane0 | plane1`,
`sub1 = plane1` and `sub2 = plane0 AND plane1`, word-for-word over the 90 words
(= byte-for-byte over the 360 bytes); in particular `fill(1)` yields sub-frames
every byte of which is (0xFF, 0x00, 0x00). -/
theorem copy_buffers_identity :
    (∀ b1 b2 : Fin 90 → Nat, ∀ i,
        (copyBuffers b1 b2).s0 i = b1 i ||| b2 i ∧
        (copyBuffers b1 b2).s1 i = b2 i ∧
        (copyBuffers b1 b2).s2 i = b1 i &&& b2 i) ∧
    (∀ i : Fin 90, ∀ j : Fin 4,
        ((copyBuffers (fillPlanes 1).1 (fillPlanes 1).2).s0 i >>> (8 * j.val)) &&& 255 = 0xff ∧
        ((copyBuffers (fillPlanes 1).1 (fillPlanes 1).2).s1 i >>> (8 * j.val)) &&& 255 = 0 ∧
        ((copyBuffers (fillPlanes 1).1 (fillPlanes 1).2).s2 i >>> (8 * j.val)) &&& 255 = 0) := by
  constructor
  · intro b1 b2 i
    exact ⟨rfl, rfl, rfl⟩
  · intro i j
    have hb0 : bitSet 1 0 = true := by decide
    have hb1 : bitSet 1 1 = false := by decide
    have hA : (copyBuffers (fillPlanes 1).1 (fillPlanes 1).2).s0 i = 0xffffffff := by
      simp [copyBuffers, fillPlanes, hb0, hb1]
    have hB : (copyBuffers (fillPlanes 1).1 (fillPlanes 1).2).s1 i = 0 := by
      simp [copyBuffers, fillPlanes, hb0, hb1]
    have hC : (copyBuffers (fillPlanes 1).1 (fillPlanes 1).2).s2 i = 0 := by
      simp [copyBuffers, fillPlanes, hb0, hb1]
    rw [hA, hB, hC]
    fin_cases j <;> exact ⟨by decide, by decide, by decide⟩

/-! ### C2: when pending work is serviced -/

/-- C2 counterexample: at sub-frame 0 with a copy request and a command request
both pending, the iteration is not the pure timing step the claim requires
(pending work only at `n == 2`, priority to the copy): the command arm is
selected (and aborts on the unbound name `pending_cmds`). -/
theorem gpu_pending_cmd_serviced_off_subframe2 :
    stAt0.fn ≠ 2 ∧ gpuIter stAt0 = (stAt0, some PyErr.nameError) ∧
      gpuIter stAt0 ≠ ({ stAt0 with fn := 1 }, none) := by
  refine ⟨by decide, rfl, ?_⟩
  intro h
  exact Option.noConfusion (congrArg Prod.snd h)

/-- C2 amended: each GPU iteration services at most one pending-work arm, in the
else-if order copy request, contrast, command; the copy and contrast arms run
only at sub-frame 2, but the command arm is tested in every iteration in which
the first two do not run (at any sub-frame number). -/
theorem gpu_pending_work_characterization (s : GpuState) :
    (s.fn = 2 → s.copyBuffs ≠ 0 →
      gpuIter s = ({ s with
        sub0 := fun i => s.plane0 i ||| s.plane1 i
        sub1 := fun i => s.plane1 i
        sub2 := fun i => s.plane0 i &&& s.plane1 i
        copyBuffs := 0, fn := (s.fn + 1) % 3 }, none)) ∧
    (s.fn = 2 → s.copyBuffs = 0 → s.contrast ≠ 0xffff →
      gpuIter s = ({ s with
        adj0 := (s.contrast >>> 5) % 256
        adj1 := (s.contrast >>> 1) % 256
        adj2 := ((s.contrast <<< 1) + 1) % 256
        contrast := 0xffff, fn := (s.fn + 1) % 3 }, none)) ∧
    ((s.fn ≠ 2 ∨ (s.copyBuffs = 0 ∧ s.contrast = 0xffff)) → s.pendingCmd ≠ 0 →
      gpuIter s = (s, some PyErr.nameError)) ∧
    ((s.fn ≠ 2 ∨ (s.copyBuffs = 0 ∧ s.contrast = 0xffff)) → s.pendingCmd = 0 →
      gpuIter s = ({ s with fn := (s.fn + 1) % 3 }, none)) := by
  refine ⟨fun h1 h2 => ?_, fun h1 h2 h3 => ?_, fun h1 h2 => ?_, fun h1 h2 => ?_⟩
  · unfold gpuIter
    rw [if_pos ⟨h1, h2⟩]
  · unfold gpuIter
    rw [if_neg (by simp [h2]), if_pos ⟨h1, h3⟩]
  · unfold gpuIter
    rcases h1 with h | ⟨hc, hs⟩
    · rw [if_neg (by simp [h]), if_neg (by simp [h]), if_pos h2]
    · rw [if_neg (by simp [hc]), if_neg (by simp [hs]), if_pos h2]
  · unfold gpuIter
    rcases h1 with h | ⟨hc, hs⟩
    · rw [if_neg (by simp [h]), if_neg (by simp [h]), if_neg (by simp [h2])]
    · rw [if_neg (by simp [hc]), if_neg (by simp [hs]), if_neg (by simp [h2])]

/-- C2 witness: a concrete sub-frame-2 iteration with a copy pending performs
exactly the compositor copy. -/
theorem gpu_pending_work_characterization_witness :
    gpuIter stCopyAt2 = ({ stCopyAt2 with
      sub0 := fun i => stCopyAt2.plane0 i ||| stCopyAt2.plane1 i
      sub1 := fun i => stCopyAt2.plane1 i
      sub2 := fun i => stCopyAt2.plane0 i &&& stCopyAt2.plane1 i
      copyBuffs := 0, fn := (stCopyAt2.fn + 1) % 3 }, none) :=
  (gpu_pending_work_characterization stCopyAt2).1 rfl (by decide)

/-! ### C3: the brightness_sync spin wait -/

/-- C3: the spin wait of `brightness_sync` can never be released by the GPU loop:
the staged (clamped) cell value never equals the tested sentinel 0xff, and a GPU
iteration either leaves the contrast cell unchanged or sets it to 0xffff — never
to 0xff.  Concretely, after the GPU consumes a staged 64 the cell holds 0xffff
and the exit test still fails. -/
theorem brightness_sync_never_released :
    (∀ c : Int, brightnessSyncExit (brightnessClamp c) = false) ∧
    (∀ s : GpuState,
      (gpuIter s).1.contrast = s.contrast ∨ (gpuIter s).1.contrast = 0xffff) ∧
    ((gpuIter stContrast64).1.contrast = 0xffff ∧
      brightnessSyncExit ((gpuIter stContrast64).1.contrast) = false) := by
  refine ⟨fun c => ?_, fun s => ?_, rfl, rfl⟩
  · have hne : brightnessClamp c ≠ 0xff := by
      unfold brightnessClamp
      split_ifs <;> omega
    unfold brightnessSyncExit
    exact beq_eq_false_iff_ne.mpr hne
  · unfold gpuIter
    split_ifs <;> simp

/-! ### C4 and C5: the write_cmd path -/

/-- C4: both halves of the running-engine command path raise: staging a 2-byte
command list raises `TypeError` at `bytearray([cmd])` before anything reaches
the scratch, and the GPU's command-service arm raises `NameError` on the unbound
name `pending_cmds`, leaving `cmd_request` set (so the caller's spin wait never
ends). -/
theorem write_cmd_path_raises :
    writeCmdStage (CmdArg.list [0xa8, 0]) = Except.error PyErr.typeError ∧
    gpuIter stCmdAt2 = (stCmdAt2, some PyErr.nameError) ∧
    (gpuIter stCmdAt2).1.pendingCmd = 1 :=
  ⟨rfl, rfl, rfl⟩

/-- C5: `write_cmd([0x00]*9)` while running raises `TypeError` (the identity
test `cmd is list` never holds for a list instance, so `bytearray([cmd])` is
reached), not the documented too-long `ValueError`, whose check is unreachable
for list arguments; nothing is staged for any list argument. -/
theorem write_cmd_overlong_type_error :
    writeCmdStage (CmdArg.list (List.replicate 9 0)) = Except.error PyErr.typeError ∧
    writeCmdStage (CmdArg.list (List.replicate 9 0)) ≠ Except.error PyErr.valueError ∧
    (∀ l : List Nat, writeCmdNormalize (CmdArg.list l) = Except.error PyErr.typeError) := by
  refine ⟨rfl, ?_, fun l => rfl⟩
  intro h
  rw [show writeCmdStage (CmdArg.list (List.replicate 9 0))
      = Except.error PyErr.typeError from rfl] at h
  injection h with h2
  exact PyErr.noConfusion h2

/-! ### C6: show() -/

/-- C6 counterexample: with the engine STOPPED, `show()` performs no SPI write
at all (it sets the copy flag and returns), while the claimed behaviour is a
direct SPI write of plane0. -/
theorem show_stopped_no_direct_write :
    (showModel THREAD_STOPPED (fillPlanes 1).1).directWrites = [] ∧
    (showAsSpecified THREAD_STOPPED (fillPlanes 1).1).directWrites = [(fillPlanes 1).1] ∧
    ([] : List (Fin 90 → Nat)) ≠ [(fillPlanes 1).1] := by
  refine ⟨rfl, rfl, ?_⟩
  intro h
  exact List.noConfusion h

/-- C6 amended: `show()` always sets `copy_request`, performs no SPI write
itself on any path, and spins until the GPU clears the flag exactly when the
engine is RUNNING; the GPU's sub-frame-2 iteration with a copy pending clears
the flag, releasing the wait. -/
theorem show_sets_flag_blocks_when_running :
    (∀ ts p0, showModel ts p0 =
      { copyBuffs := 1, directWrites := [], blocks := ts == THREAD_RUNNING }) ∧
    (∀ s : GpuState, s.fn = 2 → s.copyBuffs ≠ 0 →
      (gpuIter s).1.copyBuffs = 0 ∧ (gpuIter s).2 = none) := by
  refine ⟨fun ts p0 => rfl, fun s h1 h2 => ?_⟩
  unfold gpuIter
  rw [if_pos ⟨h1, h2⟩]
  exact ⟨rfl, rfl⟩

/-- C6 witness: a concrete sub-frame-2 iteration with a copy pending clears the
copy flag without an exception. -/
theorem show_sets_flag_witness :
    (gpuIter stShowCopy).1.copyBuffs = 0 ∧ (gpuIter stShowCopy).2 = none :=
  show_sets_flag_blocks_when_running.2 stShowCopy rfl (by decide)

/-! ### C8: the contrast expansion -/

/-- C8: staging a brightness value c ≤ 127 (the clamp leaves it unchanged) makes
the next sub-frame-2 GPU iteration set the three `_postFrameAdj` contrast bytes
to exactly (c >> 5, c >> 1, (c << 1) + 1). -/
theorem contrast_expansion (c : Nat) (hc : c ≤ 127) (s : GpuState)
    (hfn : s.fn = 2) (hcopy : s.copyBuffs = 0) :
    ((gpuIter { s with contrast := brightnessClamp (c : Int) }).1.adj0 = c >>> 5) ∧
    ((gpuIter { s with contrast := brightnessClamp (c : Int) }).1.adj1 = c >>> 1) ∧
    ((gpuIter { s with contrast := brightnessClamp (c : Int) }).1.adj2 = (c <<< 1) + 1) := by
  have hcl : brightnessClamp (c : Int) = c := by
    unfold brightnessClamp
    split_ifs <;> omega
  have h5 : c >>> 5 < 256 := by
    rw [Nat.shiftRight_eq_div_pow]
    omega
  have hr1 : c >>> 1 < 256 := by
    rw [Nat.shiftRight_eq_div_pow]
    omega
  have hl1 : (c <<< 1) + 1 < 256 := by
    rw [Nat.shiftLeft_eq]
    omega
  have hna : ¬(({ s with contrast := c } : GpuState).fn = 2 ∧
      ({ s with contrast := c } : GpuState).copyBuffs ≠ 0) := by
    simp [hcopy]
  have hyes : ({ s with contrast := c } : GpuState).fn = 2 ∧
      ({ s with contrast := c } : GpuState).contrast ≠ 0xffff := by
    refine ⟨hfn, ?_⟩
    show c ≠ 0xffff
    omega
  rw [hcl]
  unfold gpuIter
  rw [if_neg hna, if_pos hyes]
  exact ⟨Nat.mod_eq_of_lt h5, Nat.mod_eq_of_lt hr1, Nat.mod_eq_of_lt hl1⟩

/-- C8 witness: brightness 64 expands to the adj bytes (2, 32, 129). -/
theorem contrast_expansion_witness :
    ((gpuIter { stIdleAt2 with contrast := brightnessClamp ((64 : Nat) : Int) }).1.adj0
        = 64 >>> 5) ∧
    ((gpuIter { stIdleAt2 with contrast := brightnessClamp ((64 : Nat) : Int) }).1.adj1
        = 64 >>> 1) ∧
    ((gpuIter { stIdleAt2 with contrast := brightnessClamp ((64 : Nat) : Int) }).1.adj2
        = (64 <<< 1) + 1) ∧
    ((64 : Nat) >>> 5 = 2 ∧ (64 : Nat) >>> 1 = 32 ∧ ((64 : Nat) <<< 1) + 1 = 129) :=
  ⟨(contrast_expansion 64 (by decide) stIdleAt2 rfl rfl).1,
   (contrast_expansion 64 (by decide) stIdleAt2 rfl rfl).2.1,
   (contrast_expansion 64 (by decide) stIdleAt2 rfl rfl).2.2,
   by decide⟩

/-! ### C9: clipping -/

/-- C9: a filled rectangle lying entirely above the screen is not the claimed
no-op.  For `drawFilledRectangle(0, -10, 10, 5, 3)` top-clipping leaves
`height = -5`, the missing recheck lets the first band run, and its mask
`((1 << -5) - 1) << 0` (shift by a negative amount; the compiled ARMv6-M shift
gives 0) is the all-ones word -1: bytes 0..9 of both planes become 0xff. -/
theorem drawFilledRectangle_above_screen_writes :
    (drawFilledRectangle zeroFB 0 (-10) 10 5 3).b1 0 = 0xff ∧
    (drawFilledRectangle zeroFB 0 (-10) 10 5 3).b2 9 = 0xff ∧
    zeroFB.b1 0 = 0 ∧ zeroFB.b2 9 = 0 ∧
    drawFilledRectangle zeroFB 0 (-10) 10 5 3 ≠ zeroFB := by
  refine ⟨by decide, by decide, rfl, rfl, ?_⟩
  intro h
  have h0 : (drawFilledRectangle zeroFB 0 (-10) 10 5 3).b1 0 = 0 := by
    rw [h]
    rfl
  rw [show (drawFilledRectangle zeroFB 0 (-10) 10 5 3).b1 0 = 0xff from by decide] at h0
  exact absurd h0 (by norm_num)

/-! ### C10: the crosswise degenerate dispatch of drawLine -/

theorem drawHLine_nonpos_width (fb : FB) (x y w c : Int) (h : w ≤ 0) :
    drawHLine fb x y w c = fb := by
  unfold drawHLine
  split_ifs <;> rfl

theorem drawVLine_nonpos_height (fb : FB) (x y hgt c : Int) (h : hgt ≤ 0) :
    drawVLine fb x y hgt c = fb := by
  unfold drawVLine
  split_ifs <;> rfl

/-- C10: `drawLine` dispatches its axis-aligned cases crosswise, so a vertical
request (`x0 = x1`, `y0 ≠ y1`) becomes `drawHLine` with width `x1 - x0 = 0` and
a horizontal request (`y0 = y1`, `x0 ≠ x1`) becomes `drawVLine` with height
`y1 - y0 = 0` — both leave the two planes byte-identical. -/
theorem drawLine_degenerate_axis_cases :
    (∀ (fb : FB) (x y0 y1 c : Int), y0 ≠ y1 → 0 ≤ c → c < 4 →
      drawLine fb x y0 x y1 c = fb) ∧
    (∀ (fb : FB) (x0 x1 y c : Int), x0 ≠ x1 → 0 ≤ c → c < 4 →
      drawLine fb x0 y x1 y c = fb) := by
  constructor
  · intro fb x y0 y1 c hne hc0 hc4
    unfold drawLine
    rw [if_pos rfl, if_neg hne, sub_self]
    exact drawHLine_nonpos_width fb x y0 0 c le_rfl
  · intro fb x0 x1 y c hne hc0 hc4
    unfold drawLine
    rw [if_neg hne, if_pos rfl, sub_self]
    exact drawVLine_nonpos_height fb x0 y 0 c le_rfl

/-- C10 witness: a concrete vertical and a concrete horizontal request both
leave an all-zero framebuffer unchanged. -/
theorem drawLine_degenerate_axis_cases_witness :
    drawLine zeroFB 5 3 5 9 2 = zeroFB ∧ drawLine zeroFB 4 7 30 7 1 = zeroFB :=
  ⟨drawLine_degenerate_axis_cases.1 zeroFB 5 3 9 2 (by decide) (by decide) (by decide),
   drawLine_degenerate_axis_cases.2 zeroFB 4 30 7 1 (by decide) (by decide) (by decide)⟩
